import Mathlib

/-!
Shallow embedding of `src/actix-service/src/apply_cfg.rs` (actix-net).

The file models the two adapters exported by `apply_cfg.rs`:

* `apply_cfg` / `ApplyConfigService`: wraps an already-built inner service
  `T` together with a transform closure `F : FnMut(C, &mut T) -> R`
  behind `Rc<RefCell<(T, F)>>`; its `new_service(cfg)` synchronously
  borrows the pair mutably and calls the closure once.

* `apply_cfg_factory` / `ApplyConfigServiceFactory`: wraps an inner
  factory `T : ServiceFactory<Config = ()>` together with a closure
  `F : FnMut(C, &mut T::Service) -> R` behind `Rc<RefCell<(T, F)>>`;
  its `new_service(cfg)` eagerly calls the inner factory's
  `new_service(())` (under a shared borrow) and returns the three-phase
  future `ApplyConfigServiceFactoryResponse` with
  `state = State::A(inner_future)` and `cfg = Some(cfg)`.

Rust futures are modelled by behaviour scripts: a future either becomes
`Ready` with a value after a fixed number of `Pending` polls, or it is
never ready.  A service's `poll_ready` is modelled the same way, with a
possible error outcome.  `RefCell` dynamic borrow checking is modelled
by a `borrowed` flag on the shared store: `borrow_mut` (and `borrow`
while a mutable borrow is outstanding) panics when the flag is set,
which the embedding surfaces as an `Except`-level `RtError`.  The store
additionally carries two instrumentation counters, `facCalls` (number
of invocations of the inner factory's `new_service`) and `fCalls`
(number of invocations of the transform closure); they let the
invocation-count claims of the spec be stated, and are not part of the
modelled program state.
-/

namespace ApplyCfg

/-- `std::task::Poll`. -/
inductive Poll (α : Type) where
  | Ready (a : α)
  | Pending
deriving DecidableEq, Repr

/-- Behaviour script of a Rust future of output `α`: `ready d v` is
`Pending` for `d` polls and then `Ready v`; `never` is always
`Pending`. -/
inductive FutBeh (α : Type) where
  | ready (delay : Nat) (val : α)
  | never
deriving DecidableEq, Repr

/-- Polling a future behaviour returns the poll outcome together with
the future's post-poll behaviour (a future that has just answered
`Ready v` keeps answering `Ready v`, matching that the code never polls
a completed phase future again except in phase C). -/
def FutBeh.poll : FutBeh α → Poll α × FutBeh α
  | .ready 0 v => (.Ready v, .ready 0 v)
  | .ready (d + 1) v => (.Pending, .ready d v)
  | .never => (.Pending, .never)

/-- Behaviour script of a service's `poll_ready` (error type `ε`):
ready after `delay` pending polls, failing with `e` after `delay`
pending polls, or never ready. -/
inductive ReadyBeh (ε : Type) where
  | ready (delay : Nat)
  | fail (delay : Nat) (e : ε)
  | never
deriving DecidableEq, Repr

/-- One `poll_ready` step on a readiness behaviour. -/
def ReadyBeh.poll : ReadyBeh ε → Poll (Except ε Unit) × ReadyBeh ε
  | .ready 0 => (.Ready (.ok ()), .ready 0)
  | .ready (d + 1) => (.Pending, .ready d)
  | .fail 0 e => (.Ready (.error e), .fail 0 e)
  | .fail (d + 1) e => (.Pending, .fail d e)
  | .never => (.Pending, .never)

/-- Model of the inner service `T::Service`: a tag identifying the
concrete service value (so the transform closure can depend on which
service was built) plus its `poll_ready` behaviour.  `εE` is
`T::Error`. -/
structure InnerService (εE : Type) where
  tag : Nat
  ready : ReadyBeh εE
deriving DecidableEq, Repr

/-- `Service::poll_ready(&mut self, cx)`: returns the poll outcome and
the mutated service. -/
def InnerService.poll_ready (s : InnerService εE) :
    Poll (Except εE Unit) × InnerService εE :=
  let p := s.ready.poll
  (p.1, { s with ready := p.2 })

/-- Model panics raised by the code: a `RefCell` dynamic borrow
violation, and the `.unwrap()` on `self.cfg.take()` finding `None`. -/
inductive RtError where
  | borrowPanic
  | cfgUnwrapPanic
deriving DecidableEq, Repr

/-- Contents of the `Rc<RefCell<(T, F)>>` shared between an
`ApplyConfigServiceFactory` and its in-flight responses.

* `factoryFut` models the inner factory `T`: `T::new_service(())`
  takes `&self`, so the factory is immutable and every invocation
  returns a future with this behaviour script.
* `fState`/`fFn` model the `FnMut` transform closure `F`: `fFn` maps
  the closure's current internal state, the configuration and the
  (mutably borrowed) inner service to the returned future `R`, the
  mutated inner service and the closure's next internal state.
* `borrowed` is true while an exclusive (mutable) borrow of the
  `RefCell` is outstanding.
* `facCalls`/`fCalls` are instrumentation counters (see the file
  comment). -/
structure Store (σ C εE εI S : Type) where
  factoryFut : FutBeh (Except εI (InnerService εE))
  fState : σ
  fFn : σ → C → InnerService εE → FutBeh (Except εI S) × InnerService εE × σ
  borrowed : Bool
  facCalls : Nat
  fCalls : Nat

/-- The `State` enum of `apply_cfg.rs` (lines 161–172): phase A holds
the inner factory's construction future, phase B holds the constructed
inner service, phase C holds the future returned by the transform
closure. -/
inductive St (εE εI S : Type) where
  | A (fut : FutBeh (Except εI (InnerService εE)))
  | B (srv : InnerService εE)
  | C (fut : FutBeh (Except εI S))

/-- Phase index of a `State`: A = 0, B = 1, C = 2. -/
def St.phase : St εE εI S → Nat
  | .A _ => 0
  | .B _ => 1
  | .C _ => 2

/-- `ApplyConfigServiceFactoryResponse`: the per-invocation
construction future.  `store` models the `Rc` clone of the shared
`RefCell` contents (the single-response embedding threads the shared
state through the response). -/
structure Resp (σ C εE εI S : Type) where
  cfg : Option C
  store : Store σ C εE εI S
  st : St εE εI S

/-- Result of one `poll` call on a response. -/
structure PollRes (σ C εE εI S : Type) where
  out : Poll (Except εI S)
  resp : Resp σ C εE εI S

/-- The `State::B` arm of `ApplyConfigServiceFactoryResponse::poll`
(lines 197–207), also reached in the same call when the `State::A` arm
completes (`self.poll(cx)` on line 194).  `fromE : εE → εI` is the
`From` conversion required by the bound `T::InitError: From<T::Error>`,
applied by the `?` on `srv.poll_ready(cx)?`.  On readiness the code
takes `this.store.borrow_mut()` (panicking if a borrow is outstanding),
consumes the configuration via `this.cfg.take().unwrap()`, invokes the
closure, sets `State::C(fut)` (dropping the inner service held in
`State::B`) and immediately recurses into the `State::C` arm
(`self.poll(cx)` on line 204), which polls the new future once. -/
def pollFromB (fromE : εE → εI) (store : Store σ C εE εI S) (cfg : Option C)
    (srv : InnerService εE) :
    Except RtError (PollRes σ C εE εI S) :=
  match srv.poll_ready with
  | (.Pending, srv2) => .ok ⟨.Pending, ⟨cfg, store, .B srv2⟩⟩
  | (.Ready (.error e), srv2) =>
    .ok ⟨.Ready (.error (fromE e)), ⟨cfg, store, .B srv2⟩⟩
  | (.Ready (.ok _), srv2) =>
    if store.borrowed then .error .borrowPanic
    else
      match cfg with
      | none => .error .cfgUnwrapPanic
      | some c =>
        .ok ⟨((store.fFn store.fState c srv2).1.poll).1,
             ⟨none,
              { store with fState := (store.fFn store.fState c srv2).2.2,
                           fCalls := store.fCalls + 1 },
              .C ((store.fFn store.fState c srv2).1.poll).2⟩⟩

/-- `ApplyConfigServiceFactoryResponse::poll` (lines 185–210).  The
bounded tail recursion `self.poll(cx)` after a `state.set` is unrolled:
the `State::A` arm, on completion of the construction future, falls
through to the `State::B` logic (`pollFromB`) within the same call,
and `pollFromB` in turn polls the phase-C future within the same call.
In the `State::A` arm, `fut.poll(cx)?` propagates an inner
`T::InitError` unchanged (the `From<T::InitError> for T::InitError`
conversion is the identity) and leaves the state in phase A. -/
def pollResp (fromE : εE → εI) :
    Resp σ C εE εI S → Except RtError (PollRes σ C εE εI S)
  | ⟨cfg, store, .A fut⟩ =>
    match fut.poll with
    | (.Pending, fut2) => .ok ⟨.Pending, ⟨cfg, store, .A fut2⟩⟩
    | (.Ready (.error e), fut2) => .ok ⟨.Ready (.error e), ⟨cfg, store, .A fut2⟩⟩
    | (.Ready (.ok srv), _) => pollFromB fromE store cfg srv
  | ⟨cfg, store, .B srv⟩ => pollFromB fromE store cfg srv
  | ⟨cfg, store, .C fut⟩ => .ok ⟨(fut.poll).1, ⟨cfg, store, .C (fut.poll).2⟩⟩

/-- `ApplyConfigServiceFactory::new_service` (lines 137–143): takes a
shared borrow of the `RefCell` (`self.srv.borrow()`, which panics if an
exclusive borrow is outstanding), eagerly invokes the inner factory's
`new_service(())`, and returns the response with `cfg = Some(cfg)` and
`state = State::A(fut)`.  `facCalls` is incremented to record the
inner-factory invocation. -/
def ApplyConfigServiceFactory.new_service (store : Store σ C εE εI S) (cfg : C) :
    Except RtError (Resp σ C εE εI S) :=
  if store.borrowed then .error .borrowPanic
  else
    .ok ⟨some cfg, { store with facCalls := store.facCalls + 1 }, .A store.factoryFut⟩

/-- Contents of the `Rc<RefCell<(T, F)>>` held by `ApplyConfigService`
(the immediate variant): the inner service value `T` (opaque here), the
`FnMut` closure modelled as in `Store`, the borrow flag and the
closure-invocation counter. -/
structure SvcStore (σ C T R : Type) where
  srv : T
  fState : σ
  fFn : σ → C → T → R × T × σ
  borrowed : Bool
  fCalls : Nat

/-- `ApplyConfigService::new_service` (lines 87–90):
`let (t, f) = &mut *self.srv.borrow_mut(); f(cfg, t)` — takes the
exclusive borrow (panicking if any borrow is outstanding), calls the
closure once with the configuration and the mutable inner-service
reference, and returns the closure's future; the mutations the closure
made to the pair persist in the store. -/
def ApplyConfigService.new_service (s : SvcStore σ C T R) (cfg : C) :
    Except RtError (R × SvcStore σ C T R) :=
  if s.borrowed then .error .borrowPanic
  else
    let t := s.fFn s.fState cfg s.srv
    .ok (t.1, { s with srv := t.2.1, fState := t.2.2, fCalls := s.fCalls + 1 })

/-- Drive a response with `fuel` polls: stop at the first `Ready`
output (returning it with the final response), return `none` if the
fuel runs out with the response still pending. -/
def drive (fromE : εE → εI) (fuel : Nat) (r : Resp σ C εE εI S) :
    Except RtError (Option (Except εI S) × Resp σ C εE εI S) :=
  match fuel with
  | 0 => .ok (none, r)
  | fuel + 1 =>
    match pollResp fromE r with
    | .error e => .error e
    | .ok pr =>
      match pr.out with
      | .Ready v => .ok (some v, pr.resp)
      | .Pending => drive fromE fuel pr.resp

/-- Responses reachable from `r0` by repeatedly polling (the states a
single `ApplyConfigServiceFactoryResponse` can be in over its
lifetime). -/
inductive Reach (fromE : εE → εI) (r0 : Resp σ C εE εI S) :
    Resp σ C εE εI S → Prop where
  | refl : Reach fromE r0 r0
  | step {r : Resp σ C εE εI S} {pr : PollRes σ C εE εI S} :
      Reach fromE r0 r → pollResp fromE r = .ok pr → Reach fromE r0 pr.resp

/-! Concrete example data, used to evaluate the theorems below on
closed inputs.  All type parameters are instantiated with `Nat`; the
`T::InitError: From<T::Error>` conversion is `exFrom`. -/

/-- Example error conversion `T::Error → T::InitError`. -/
def exFrom : Nat → Nat := fun e => e + 100

/-- Example store: everything immediately ready, transform returning
`cfg * 10 + tag`. -/
def w1store : Store Nat Nat Nat Nat Nat :=
  ⟨.ready 0 (.ok ⟨5, .ready 0⟩), 0,
   fun s c srv => (.ready 0 (.ok (c * 10 + srv.tag)), srv, s + 1), false, 1, 0⟩

/-- Example response in phase A over `w1store`. -/
def w1r : Resp Nat Nat Nat Nat Nat := ⟨some 7, w1store, .A w1store.factoryFut⟩

/-- The result of one poll of `w1r`: all three phases complete in the
single call. -/
def w1pr : PollRes Nat Nat Nat Nat Nat :=
  ⟨.Ready (.ok 75),
   ⟨none, { w1store with fState := 1, fCalls := 1 }, .C (.ready 0 (.ok 75))⟩⟩

/-- Example store whose inner construction future fails with error `7`
after one pending poll. -/
def w2store : Store Nat Nat Nat Nat Nat :=
  ⟨.ready 1 (.error 7), 0,
   fun s c srv => (.ready 0 (.ok (c * 10 + srv.tag)), srv, s + 1), false, 0, 0⟩

/-- Example store whose inner service's readiness fails with error `9`
after one pending poll. -/
def w3store : Store Nat Nat Nat Nat Nat :=
  ⟨.ready 1 (.ok ⟨4, .fail 1 9⟩), 0,
   fun s c srv => (.ready 0 (.ok (c * 10 + srv.tag)), srv, s + 1), false, 0, 0⟩

/-- Example store with everything immediate (fresh counters). -/
def w4store : Store Nat Nat Nat Nat Nat :=
  ⟨.ready 0 (.ok ⟨5, .ready 0⟩), 0,
   fun s c srv => (.ready 0 (.ok (c * 10 + srv.tag)), srv, s + 1), false, 0, 0⟩

/-- The response freshly created by `new_service w4store 7`. -/
def w4r0 : Resp Nat Nat Nat Nat Nat :=
  ⟨some 7, { w4store with facCalls := 1 }, .A w4store.factoryFut⟩

/-- Example store with everything immediate (fresh counters). -/
def w5store : Store Nat Nat Nat Nat Nat :=
  ⟨.ready 0 (.ok ⟨5, .ready 0⟩), 0,
   fun s c srv => (.ready 0 (.ok (c * 10 + srv.tag)), srv, s + 1), false, 0, 0⟩

/-- The response freshly created by `new_service w5store 7`. -/
def w5r0 : Resp Nat Nat Nat Nat Nat :=
  ⟨some 7, { w5store with facCalls := 1 }, .A w5store.factoryFut⟩

/-- The result of one poll of `w5r0`: immediate success `75`. -/
def w5pr : PollRes Nat Nat Nat Nat Nat :=
  ⟨.Ready (.ok 75),
   ⟨none, { w5store with facCalls := 1, fState := 1, fCalls := 1 },
    .C (.ready 0 (.ok 75))⟩⟩

/-- Example immediate-variant store (inner service and returned future
modelled as `Nat`). -/
def w6svc : SvcStore Nat Nat Nat Nat :=
  ⟨3, 0, fun s c t => (c * 10 + t, t + 1, s + 1), false, 0⟩

/-- Example immediate-variant store with an exclusive borrow
outstanding. -/
def w7svc : SvcStore Nat Nat Nat Nat :=
  ⟨3, 0, fun s c t => (c, t, s), true, 0⟩

/-- Example factory store with an exclusive borrow outstanding. -/
def w7store : Store Nat Nat Nat Nat Nat :=
  ⟨.never, 0, fun s c srv => (.never, srv, s), true, 0, 0⟩

/-- Example factory store with a slow inner construction future. -/
def w8store : Store Nat Nat Nat Nat Nat :=
  ⟨.ready 2 (.ok ⟨5, .ready 1⟩), 0, fun s c srv => (.never, srv, s), false, 0, 0⟩

/-- Example factory store whose inner service is never ready. -/
def w9store : Store Nat Nat Nat Nat Nat :=
  ⟨.ready 1 (.ok ⟨4, .never⟩), 0, fun s c srv => (.never, srv, s), false, 0, 0⟩

/-- Example factory store (with a nonzero starting `facCalls`). -/
def w10store : Store Nat Nat Nat Nat Nat :=
  ⟨.ready 0 (.ok ⟨2, .ready 0⟩), 0, fun s c srv => (.ready 0 (.ok c), srv, s),
   false, 3, 0⟩

/-- A phase-C response over `w10store` with a never-ready transform
future. -/
def w10r : Resp Nat Nat Nat Nat Nat := ⟨none, w10store, .C .never⟩

/-- The result of one poll of `w10r`. -/
def w10pr : PollRes Nat Nat Nat Nat Nat := ⟨.Pending, w10r⟩

section Lemmas

variable {σ C T R εE εI S : Type}

/-- Polling in phase B never panics when no borrow is outstanding and a
configuration value is stored. -/
theorem pollFromB_no_panic (fromE : εE → εI) (store : Store σ C εE εI S)
    (c : C) (srv : InnerService εE) (hb : store.borrowed = false) :
    ∀ e, pollFromB fromE store (some c) srv ≠ .error e := by
  intro e h
  unfold pollFromB at h
  split at h
  · cases h
  · cases h
  · rw [hb] at h
    simp only [Bool.false_eq_true, if_false] at h
    cases h

/-- Case analysis on one phase-B poll: the state either stays in phase
B with the configuration and store untouched (and the output is never a
success), or — only when no borrow is outstanding and a configuration
is stored — it moves to phase C, consuming the configuration and
invoking the transform closure exactly once. -/
theorem pollFromB_cases (fromE : εE → εI) (store : Store σ C εE εI S)
    (cfg : Option C) (srv : InnerService εE) (pr : PollRes σ C εE εI S)
    (h : pollFromB fromE store cfg srv = .ok pr) :
    ((∃ srv2, pr.resp = ⟨cfg, store, .B srv2⟩) ∧ ∀ s, pr.out ≠ .Ready (.ok s)) ∨
    (store.borrowed = false ∧ ∃ c fs2 fut2, cfg = some c ∧
      pr.resp = ⟨none, { store with fState := fs2, fCalls := store.fCalls + 1 },
                 .C fut2⟩) := by
  unfold pollFromB at h
  split at h
  · cases h
    exact .inl ⟨⟨_, rfl⟩, by intro s hs; cases hs⟩
  · cases h
    exact .inl ⟨⟨_, rfl⟩, by intro s hs; cases hs⟩
  · split at h
    · cases h
    · split at h
      · cases h
      · cases h
        rename_i hb _ c
        exact .inr ⟨by simpa using hb, c, _, _, rfl, rfl⟩

/-- Case analysis on one full poll of a response: the state stays in
phase A, stays in phase B (reached from phase ≤ 1), enters phase C
(consuming the configuration and bumping `fCalls` once, possible only
from phase ≤ 1 with a stored configuration and no outstanding borrow),
or stays in phase C (store and configuration untouched).  A successful
output is only produced with the machine in phase C. -/
theorem pollResp_cases (fromE : εE → εI) (r : Resp σ C εE εI S)
    (pr : PollRes σ C εE εI S) (h : pollResp fromE r = .ok pr) :
    ((∃ fut2, pr.resp = ⟨r.cfg, r.store, .A fut2⟩) ∧ r.st.phase = 0 ∧
      ∀ s, pr.out ≠ .Ready (.ok s)) ∨
    ((∃ srv2, pr.resp = ⟨r.cfg, r.store, .B srv2⟩) ∧ r.st.phase ≤ 1 ∧
      ∀ s, pr.out ≠ .Ready (.ok s)) ∨
    (r.st.phase ≤ 1 ∧ r.store.borrowed = false ∧ ∃ c fs2 fut2, r.cfg = some c ∧
      pr.resp = ⟨none, { r.store with fState := fs2, fCalls := r.store.fCalls + 1 },
                 .C fut2⟩) ∨
    (r.st.phase = 2 ∧ ∃ fut2, pr.resp = ⟨r.cfg, r.store, .C fut2⟩) := by
  obtain ⟨cfg, store, st⟩ := r
  cases st with
  | A fut =>
    simp only [pollResp] at h
    split at h
    · cases h
      exact .inl ⟨⟨_, rfl⟩, rfl, by intro s hs; cases hs⟩
    · cases h
      exact .inl ⟨⟨_, rfl⟩, rfl, by intro s hs; cases hs⟩
    · rcases pollFromB_cases fromE store cfg _ pr h with ⟨⟨srv2, hr⟩, hout⟩ | hC
      · exact .inr (.inl ⟨⟨srv2, hr⟩, by simp [St.phase], hout⟩)
      · exact .inr (.inr (.inl ⟨by simp [St.phase], hC⟩))
  | B srv =>
    simp only [pollResp] at h
    rcases pollFromB_cases fromE store cfg _ pr h with ⟨⟨srv2, hr⟩, hout⟩ | hC
    · exact .inr (.inl ⟨⟨srv2, hr⟩, by simp [St.phase], hout⟩)
    · exact .inr (.inr (.inl ⟨by simp [St.phase], hC⟩))
  | C fut =>
    simp only [pollResp] at h
    cases h
    exact .inr (.inr (.inr ⟨rfl, _, rfl⟩))

/-- Polling a response never panics as long as no borrow of the shared
store is outstanding and, when the machine is still in phase A or B,
the configuration slot is filled. -/
theorem pollResp_no_panic (fromE : εE → εI) (r : Resp σ C εE εI S)
    (hb : r.store.borrowed = false)
    (hc : r.st.phase ≤ 1 → ∃ c, r.cfg = some c) :
    ∀ e, pollResp fromE r ≠ .error e := by
  obtain ⟨cfg, store, st⟩ := r
  cases st with
  | A fut =>
    obtain ⟨c, hc⟩ := hc (by simp [St.phase])
    subst hc
    intro e h
    simp only [pollResp] at h
    split at h
    · cases h
    · cases h
    · exact pollFromB_no_panic fromE store c _ hb e h
  | B srv =>
    obtain ⟨c, hc⟩ := hc (by simp [St.phase])
    subst hc
    intro e h
    simp only [pollResp] at h
    exact pollFromB_no_panic fromE store c _ hb e h
  | C fut =>
    intro e h
    simp only [pollResp] at h
    cases h

/-- Driving a response in phase A with a construction future that is
pending for `d` more polls spends `d` polls without any other effect. -/
theorem drive_A_delay (fromE : εE → εI) (d k : Nat) (cfg : Option C)
    (store : Store σ C εE εI S) (v : Except εI (InnerService εE)) :
    drive fromE (d + k) ⟨cfg, store, .A (.ready d v)⟩
      = drive fromE k ⟨cfg, store, .A (.ready 0 v)⟩ := by
  induction d with
  | zero => rw [Nat.zero_add]
  | succ d ih =>
    have h : d + 1 + k = (d + k) + 1 := by omega
    rw [h]
    simpa only [drive, pollResp, FutBeh.poll] using ih

/-- With too little fuel, a pending phase-A construction future just
counts down: the run ends with no output and the machine still in
phase A. -/
theorem drive_A_short (fromE : εE → εI) :
    ∀ (k d : Nat), k ≤ d → ∀ (cfg : Option C) (store : Store σ C εE εI S)
      (v : Except εI (InnerService εE)),
      drive fromE k ⟨cfg, store, .A (.ready d v)⟩
        = .ok (none, ⟨cfg, store, .A (.ready (d - k) v)⟩) := by
  intro k
  induction k with
  | zero => intro d _ cfg store v; rfl
  | succ k ih =>
    intro d hk cfg store v
    match d, hk with
    | d + 1, hk =>
      have h2 : d + 1 - (k + 1) = d - k := by omega
      rw [h2]
      simpa only [drive, pollResp, FutBeh.poll] using ih d (by omega) cfg store v

/-- A phase-B service whose readiness check fails after `d` pending
polls makes the whole construction fail with the converted error after
`d + 1` polls, leaving the machine in phase B with the store (and hence
the transform-invocation count) untouched. -/
theorem drive_B_fail (fromE : εE → εI) (d : Nat) (e : εE) (tag : Nat)
    (cfg : Option C) (store : Store σ C εE εI S) :
    drive fromE (d + 1) ⟨cfg, store, .B ⟨tag, .fail d e⟩⟩
      = .ok (some (.error (fromE e)), ⟨cfg, store, .B ⟨tag, .fail 0 e⟩⟩) := by
  induction d with
  | zero => rfl
  | succ d ih =>
    simpa only [drive, pollResp, pollFromB, InnerService.poll_ready,
      ReadyBeh.poll] using ih

/-- A phase-B service that is never ready keeps the whole response
pending forever: any amount of fuel is spent without producing an
output or changing the response. -/
theorem drive_B_never (fromE : εE → εI) (cfg : Option C)
    (store : Store σ C εE εI S) (tag : Nat) :
    ∀ fuel, drive fromE fuel ⟨cfg, store, .B ⟨tag, .never⟩⟩
      = .ok (none, ⟨cfg, store, .B ⟨tag, .never⟩⟩) := by
  intro fuel
  induction fuel with
  | zero => rfl
  | succ fuel ih =>
    simpa only [drive, pollResp, pollFromB, InnerService.poll_ready,
      ReadyBeh.poll] using ih

/-- A phase-A future that is already ready with a service whose
readiness fails after `dB` pending polls: the run fails with the
converted error after `dB + 1` further polls. -/
theorem drive_A0_fail (fromE : εE → εI) (dB : Nat) (e : εE) (tag : Nat)
    (cfg : Option C) (store : Store σ C εE εI S) :
    drive fromE (dB + 1) ⟨cfg, store, .A (.ready 0 (.ok ⟨tag, .fail dB e⟩))⟩
      = .ok (some (.error (fromE e)), ⟨cfg, store, .B ⟨tag, .fail 0 e⟩⟩) := by
  cases dB with
  | zero => rfl
  | succ dB =>
    simpa only [drive, pollResp, pollFromB, InnerService.poll_ready,
      ReadyBeh.poll, FutBeh.poll] using drive_B_fail fromE dB e tag cfg store

/-- A phase-A future that is already ready with a never-ready service:
any further fuel is spent pending, parked in phase B. -/
theorem drive_A0_never (fromE : εE → εI) (k tag : Nat) (cfg : Option C)
    (store : Store σ C εE εI S) :
    drive fromE (k + 1) ⟨cfg, store, .A (.ready 0 (.ok ⟨tag, .never⟩))⟩
      = .ok (none, ⟨cfg, store, .B ⟨tag, .never⟩⟩) := by
  simpa only [drive, pollResp, pollFromB, InnerService.poll_ready,
    ReadyBeh.poll, FutBeh.poll] using drive_B_never fromE cfg store tag k

end Lemmas

section Claims

variable {σ C T R εE εI S : Type}

/-- Claim C1: the three phases run in strict linear order (the phase
index never decreases under polling), and the completion of a phase's
driving future advances the machine and resumes polling within the same
poll call: completion of the phase-A future makes the same call run the
phase-B logic, and readiness in phase B makes the same call create the
phase-C future and poll it once, returning that poll's outcome. -/
theorem c1_phases_linear_same_call (fromE : εE → εI) :
    (∀ (r : Resp σ C εE εI S) (pr : PollRes σ C εE εI S),
      pollResp fromE r = .ok pr → r.st.phase ≤ pr.resp.st.phase) ∧
    (∀ (cfg : Option C) (store : Store σ C εE εI S)
      (fut fut2 : FutBeh (Except εI (InnerService εE))) (srv : InnerService εE),
      fut.poll = (.Ready (.ok srv), fut2) →
      pollResp fromE ⟨cfg, store, .A fut⟩ = pollFromB fromE store cfg srv) ∧
    (∀ (store : Store σ C εE εI S) (c : C) (srv srv2 : InnerService εE),
      store.borrowed = false →
      srv.poll_ready = (.Ready (.ok ()), srv2) →
      pollFromB fromE store (some c) srv =
        .ok ⟨((store.fFn store.fState c srv2).1.poll).1,
             ⟨none,
              { store with fState := (store.fFn store.fState c srv2).2.2,
                           fCalls := store.fCalls + 1 },
              .C ((store.fFn store.fState c srv2).1.poll).2⟩⟩) := by
  refine ⟨?_, ?_, ?_⟩
  · intro r pr h
    rcases pollResp_cases fromE r pr h with
      ⟨⟨fut2, hr⟩, h0, _⟩ | ⟨⟨srv2, hr⟩, h1, _⟩ | ⟨h1, _, c, fs2, fut2, _, hr⟩ |
      ⟨h2, fut2, hr⟩
    · rw [hr]; exact Nat.le_of_eq h0
    · rw [hr]; exact h1
    · rw [hr]; exact Nat.le_succ_of_le h1
    · rw [hr]; exact Nat.le_of_eq h2
  · intro cfg store fut fut2 srv hpoll
    simp [pollResp, hpoll]
  · intro store c srv srv2 hb hpr
    simp [pollFromB, hpr, hb]

/-- Claim C2: if the inner factory's construction future resolves to an
error after `d` pending polls, the whole construction resolves to that
error (carried unchanged, the `From<InitError> for InitError`
conversion being the identity) at poll `d + 1`, the machine never
leaves phase A, and the transform closure is never invoked. -/
theorem c2_construction_error_short_circuits (fromE : εE → εI)
    (store : Store σ C εE εI S) (cfg0 : C) (d : Nat) (e : εI)
    (hb : store.borrowed = false)
    (hf : store.factoryFut = .ready d (.error e)) :
    ∃ r0 rF, ApplyConfigServiceFactory.new_service store cfg0 = .ok r0 ∧
      drive fromE (d + 1) r0 = .ok (some (.error e), rF) ∧
      rF.store.fCalls = store.fCalls ∧ rF.st.phase = 0 := by
  refine ⟨⟨some cfg0, { store with facCalls := store.facCalls + 1 },
           .A store.factoryFut⟩,
          ⟨some cfg0, { store with facCalls := store.facCalls + 1 },
           .A (.ready 0 (.error e))⟩, ?_, ?_, rfl, rfl⟩
  · simp [ApplyConfigServiceFactory.new_service, hb]
  · rw [hf, drive_A_delay fromE d 1]
    rfl

/-- Claim C3: if the constructed inner service's readiness check fails
(after `dB` pending readiness polls, the construction future itself
taking `dA` pending polls), the whole construction resolves to that
error converted through the required `T::InitError: From<T::Error>`
conversion `fromE`, the machine never reaches phase C, and the
transform closure is never invoked. -/
theorem c3_readiness_error_converted (fromE : εE → εI)
    (store : Store σ C εE εI S) (cfg0 : C) (dA dB tag : Nat) (e : εE)
    (hb : store.borrowed = false)
    (hf : store.factoryFut = .ready dA (.ok ⟨tag, .fail dB e⟩)) :
    ∃ r0 rF, ApplyConfigServiceFactory.new_service store cfg0 = .ok r0 ∧
      drive fromE (dA + dB + 1) r0 = .ok (some (.error (fromE e)), rF) ∧
      rF.store.fCalls = store.fCalls ∧ rF.st.phase = 1 := by
  refine ⟨⟨some cfg0, { store with facCalls := store.facCalls + 1 },
           .A store.factoryFut⟩,
          ⟨some cfg0, { store with facCalls := store.facCalls + 1 },
           .B ⟨tag, .fail 0 e⟩⟩, ?_, ?_, rfl, rfl⟩
  · simp [ApplyConfigServiceFactory.new_service, hb]
  · have h1 : dA + dB + 1 = dA + (dB + 1) := by omega
    rw [hf, h1, drive_A_delay fromE dA (dB + 1)]
    exact drive_A0_fail fromE dB e tag _ _

/-- Claim C6: `ApplyConfigService::new_service` takes the exclusive
borrow of the shared pair, calls the closure synchronously exactly once
with the configuration and the inner service, returns exactly the
future the closure produced, and the shared pair afterwards holds
exactly what the closure left there — no readiness wait, no other
mutation. -/
theorem c6_apply_cfg_new_service (s : SvcStore σ C T R) (cfg : C)
    (hb : s.borrowed = false) :
    ApplyConfigService.new_service s cfg =
      .ok ((s.fFn s.fState cfg s.srv).1,
           { s with srv := (s.fFn s.fState cfg s.srv).2.1,
                    fState := (s.fFn s.fState cfg s.srv).2.2,
                    fCalls := s.fCalls + 1 }) := by
  simp [ApplyConfigService.new_service, hb]

/-- Claim C7: requesting the exclusive borrow of the shared state while
another exclusive borrow is outstanding fails fast with a borrow panic
rather than granting overlapping access — both in
`ApplyConfigService::new_service` and in the phase-B arm of the
construction future at the moment it would invoke the transform. -/
theorem c7_borrow_conflict_fails_fast (fromE : εE → εI)
    (s : SvcStore σ C T R) (cfg : C) (store : Store σ C εE εI S)
    (cfgO : Option C) (srv : InnerService εE)
    (hs : s.borrowed = true) (hst : store.borrowed = true)
    (hr : srv.ready = .ready 0) :
    ApplyConfigService.new_service s cfg = .error .borrowPanic ∧
    pollFromB fromE store cfgO srv = .error .borrowPanic := by
  constructor
  · simp [ApplyConfigService.new_service, hs]
  · obtain ⟨tag, rb⟩ := srv
    simp only [InnerService.mk.injEq] at hr
    rw [show rb = ReadyBeh.ready 0 from hr]
    simp [pollFromB, InnerService.poll_ready, ReadyBeh.poll, hst]

/-- Claim C8: `ApplyConfigServiceFactory::new_service` returns its
response immediately, storing the configuration and the inner factory's
(not yet polled) construction future, and leaves the shared
(factory, closure) state unmutated: factory behaviour, closure state,
closure function, closure-invocation count and borrow flag are all
unchanged until the returned future is driven. -/
theorem c8_factory_new_service_no_mutation (store : Store σ C εE εI S)
    (cfg : C) (hb : store.borrowed = false) :
    ∃ r0, ApplyConfigServiceFactory.new_service store cfg = .ok r0 ∧
      r0.cfg = some cfg ∧ r0.st = .A store.factoryFut ∧
      r0.store.factoryFut = store.factoryFut ∧
      r0.store.fState = store.fState ∧ r0.store.fFn = store.fFn ∧
      r0.store.fCalls = store.fCalls ∧ r0.store.borrowed = false := by
  refine ⟨⟨some cfg, { store with facCalls := store.facCalls + 1 },
           .A store.factoryFut⟩, ?_, rfl, rfl, rfl, rfl, rfl, rfl, hb⟩
  simp [ApplyConfigServiceFactory.new_service, hb]

/-- Claim C9: if the inner service is never ready, every poll in phase
B returns `Pending` and leaves the response (state, configuration and
store, hence the transform-invocation count) exactly as it was; a full
construction whose inner service is never ready spends any amount of
fuel without resolving, never invoking the transform and never reaching
phase C. -/
theorem c9_never_ready_never_resolves (fromE : εE → εI)
    (store : Store σ C εE εI S) (cfg0 : C) (dA tag : Nat)
    (hb : store.borrowed = false)
    (hf : store.factoryFut = .ready dA (.ok ⟨tag, .never⟩)) :
    (∀ (cfg : Option C) (st2 : Store σ C εE εI S),
      pollResp fromE ⟨cfg, st2, .B ⟨tag, .never⟩⟩
        = .ok ⟨.Pending, ⟨cfg, st2, .B ⟨tag, .never⟩⟩⟩) ∧
    ∃ r0, ApplyConfigServiceFactory.new_service store cfg0 = .ok r0 ∧
      ∀ fuel, ∃ rF, drive fromE fuel r0 = .ok (none, rF) ∧
        rF.store.fCalls = store.fCalls ∧ rF.st.phase ≤ 1 := by
  constructor
  · intro cfg st2; rfl
  · refine ⟨⟨some cfg0, { store with facCalls := store.facCalls + 1 },
             .A store.factoryFut⟩,
            by simp [ApplyConfigServiceFactory.new_service, hb], ?_⟩
    intro fuel
    rw [hf]
    by_cases hfu : fuel ≤ dA
    · exact ⟨_, drive_A_short fromE fuel dA hfu _ _ _, rfl, by simp [St.phase]⟩
    · have h1 : fuel = dA + (fuel - dA - 1 + 1) := by omega
      rw [h1, drive_A_delay fromE dA (fuel - dA - 1 + 1),
          drive_A0_never fromE (fuel - dA - 1) tag]
      exact ⟨_, rfl, rfl, by simp [St.phase]⟩

/-- Claim C10: every outer `ApplyConfigServiceFactory::new_service`
invocation calls the inner factory's `new_service(())` exactly once,
eagerly at invocation time (before the response is first polled, which
never invokes the inner factory again), and panics if an exclusive
borrow of the shared state is outstanding at that moment. -/
theorem c10_inner_factory_once_eager (fromE : εE → εI)
    (store : Store σ C εE εI S) (cfg : C) :
    (store.borrowed = true →
      ApplyConfigServiceFactory.new_service store cfg = .error .borrowPanic) ∧
    (store.borrowed = false →
      ∃ r0, ApplyConfigServiceFactory.new_service store cfg = .ok r0 ∧
        r0.store.facCalls = store.facCalls + 1 ∧ r0.st = .A store.factoryFut) ∧
    (∀ (r : Resp σ C εE εI S) (pr : PollRes σ C εE εI S),
      pollResp fromE r = .ok pr →
        pr.resp.store.facCalls = r.store.facCalls) := by
  refine ⟨?_, ?_, ?_⟩
  · intro hb
    simp [ApplyConfigServiceFactory.new_service, hb]
  · intro hb
    refine ⟨⟨some cfg, { store with facCalls := store.facCalls + 1 },
             .A store.factoryFut⟩, ?_, rfl, rfl⟩
    simp [ApplyConfigServiceFactory.new_service, hb]
  · intro r pr h
    rcases pollResp_cases fromE r pr h with
      ⟨⟨fut2, hr⟩, _, _⟩ | ⟨⟨srv2, hr⟩, _, _⟩ | ⟨_, _, c, fs2, fut2, _, hr⟩ |
      ⟨_, fut2, hr⟩ <;> rw [hr]

/-- Lifetime invariant of a construction response created by
`ApplyConfigServiceFactory::new_service`: no borrow is left
outstanding; while the machine is in phase A or B the configuration
slot holds the original configuration and the transform has not been
invoked; once the machine is in phase C the configuration slot is empty
and the transform has been invoked exactly once. -/
theorem reach_inv (fromE : εE → εI) (store : Store σ C εE εI S) (cfg0 : C)
    (r0 : Resp σ C εE εI S)
    (h0 : ApplyConfigServiceFactory.new_service store cfg0 = .ok r0) :
    ∀ r, Reach fromE r0 r →
      r.store.borrowed = false ∧
      (r.st.phase ≤ 1 → r.cfg = some cfg0 ∧ r.store.fCalls = store.fCalls) ∧
      (r.st.phase = 2 → r.cfg = none ∧ r.store.fCalls = store.fCalls + 1) := by
  have h0' : store.borrowed = false ∧
      r0 = ⟨some cfg0, { store with facCalls := store.facCalls + 1 },
            .A store.factoryFut⟩ := by
    unfold ApplyConfigServiceFactory.new_service at h0
    split at h0
    · cases h0
    · cases h0
      rename_i hnb
      exact ⟨by simpa using hnb, rfl⟩
  intro r hr
  induction hr with
  | refl =>
    rw [h0'.2]
    exact ⟨h0'.1, fun _ => ⟨rfl, rfl⟩, fun h2 => by simp [St.phase] at h2⟩
  | step hprev hpoll ih =>
    rename_i rr pr
    obtain ⟨ihb, ih1, ih2⟩ := ih
    rcases pollResp_cases fromE _ pr hpoll with
      ⟨⟨fut2, hresp⟩, hph, _⟩ | ⟨⟨srv2, hresp⟩, hph, _⟩ |
      ⟨hph, hbf, c, fs2, fut2, hcfg, hresp⟩ | ⟨hph, fut2, hresp⟩
    · rw [hresp]
      have h01 : rr.st.phase ≤ 1 := by omega
      exact ⟨ihb, fun _ => ih1 h01, fun h2 => by simp [St.phase] at h2⟩
    · rw [hresp]
      exact ⟨ihb, fun _ => ih1 hph, fun h2 => by simp [St.phase] at h2⟩
    · rw [hresp]
      refine ⟨ihb, fun h1 => by simp [St.phase] at h1, fun _ => ⟨rfl, ?_⟩⟩
      show rr.store.fCalls + 1 = store.fCalls + 1
      rw [(ih1 hph).2]
    · rw [hresp]
      exact ⟨ihb, fun h1 => by simp [St.phase] at h1, fun _ => ih2 hph⟩

/-- Claim C4: in every reachable state of a construction the
configuration is consumed exactly once, at the transition into phase C:
in phases A and B the configuration slot still holds the original
configuration, in phase C it is empty, a poll that lands in phase C has
emptied it, and polling a reachable state never panics (in particular
the `self.cfg.take().unwrap()` at the B→C transition never fails). -/
theorem c4_config_consumed_once (fromE : εE → εI)
    (store : Store σ C εE εI S) (cfg0 : C) (r0 r : Resp σ C εE εI S)
    (h0 : ApplyConfigServiceFactory.new_service store cfg0 = .ok r0)
    (hr : Reach fromE r0 r) :
    (r.st.phase ≤ 1 → r.cfg = some cfg0) ∧
    (r.st.phase = 2 → r.cfg = none) ∧
    (∀ pr, pollResp fromE r = .ok pr → pr.resp.st.phase = 2 →
      pr.resp.cfg = none) ∧
    (∀ e, pollResp fromE r ≠ .error e) := by
  obtain ⟨hb, h1, h2⟩ := reach_inv fromE store cfg0 r0 h0 r hr
  refine ⟨fun h => (h1 h).1, fun h => (h2 h).1, ?_, ?_⟩
  · intro pr hpr hph
    obtain ⟨_, _, h2'⟩ :=
      reach_inv fromE store cfg0 r0 h0 pr.resp (.step hr hpr)
    exact (h2' hph).1
  · exact pollResp_no_panic fromE r hb (fun h => ⟨cfg0, (h1 h).1⟩)

/-- Claim C5: a poll that resolves the construction successfully leaves
the transform-invocation count at exactly one; the machine is then in
phase C, and any further poll only drives the already-created phase-C
future: it never invokes the transform again and never leaves
phase C. -/
theorem c5_transform_once_on_success (fromE : εE → εI)
    (store : Store σ C εE εI S) (cfg0 : C) (r0 r : Resp σ C εE εI S)
    (pr : PollRes σ C εE εI S) (s : S)
    (h0 : ApplyConfigServiceFactory.new_service store cfg0 = .ok r0)
    (hr : Reach fromE r0 r)
    (hp : pollResp fromE r = .ok pr)
    (hout : pr.out = .Ready (.ok s)) :
    pr.resp.store.fCalls = store.fCalls + 1 ∧
    pr.resp.st.phase = 2 ∧
    ∀ pr2, pollResp fromE pr.resp = .ok pr2 →
      pr2.resp.store.fCalls = pr.resp.store.fCalls ∧
      pr2.resp.st.phase = 2 := by
  have hph2 : pr.resp.st.phase = 2 := by
    rcases pollResp_cases fromE r pr hp with
      ⟨_, _, hno⟩ | ⟨_, _, hno⟩ | ⟨_, _, c, fs2, fut2, _, hresp⟩ |
      ⟨_, fut2, hresp⟩
    · exact absurd hout (hno s)
    · exact absurd hout (hno s)
    · rw [hresp]; rfl
    · rw [hresp]; rfl
  have hinv := reach_inv fromE store cfg0 r0 h0 pr.resp (.step hr hp)
  refine ⟨(hinv.2.2 hph2).2, hph2, ?_⟩
  intro pr2 hp2
  rcases pollResp_cases fromE pr.resp pr2 hp2 with
    ⟨_, hph0, _⟩ | ⟨_, hph1, _⟩ | ⟨hph1, _, _, _, _, _, _⟩ | ⟨_, fut2, hresp⟩
  · exact absurd (hph0.symm.trans hph2) (by decide)
  · exact absurd (hph2 ▸ hph1) (by decide)
  · exact absurd (hph2 ▸ hph1) (by decide)
  · rw [hresp]
    exact ⟨rfl, rfl⟩

end Claims

section Witnesses

/-- Claim C1, witnessed at concrete inputs: phase monotonicity on
`w1r`, same-call fall-through from phase A, and same-call phase-C poll
after readiness. -/
theorem c1_witness :
    (pollResp exFrom w1r = .ok w1pr ∧ w1r.st.phase ≤ w1pr.resp.st.phase) ∧
    (w1store.factoryFut.poll
        = (.Ready (.ok ⟨5, .ready 0⟩), w1store.factoryFut) ∧
      pollResp exFrom ⟨some 7, w1store, .A w1store.factoryFut⟩
        = pollFromB exFrom w1store (some 7) ⟨5, .ready 0⟩) ∧
    (w1store.borrowed = false ∧
      (⟨5, .ready 0⟩ : InnerService Nat).poll_ready
        = (.Ready (.ok ()), ⟨5, .ready 0⟩) ∧
      pollFromB exFrom w1store (some 7) ⟨5, .ready 0⟩ =
        .ok ⟨((w1store.fFn w1store.fState 7 ⟨5, .ready 0⟩).1.poll).1,
             ⟨none,
              { w1store with
                  fState := (w1store.fFn w1store.fState 7 ⟨5, .ready 0⟩).2.2,
                  fCalls := w1store.fCalls + 1 },
              .C ((w1store.fFn w1store.fState 7 ⟨5, .ready 0⟩).1.poll).2⟩⟩) :=
  ⟨⟨rfl, (c1_phases_linear_same_call exFrom).1 w1r w1pr rfl⟩,
   ⟨rfl, (c1_phases_linear_same_call exFrom).2.1 (some 7) w1store
      w1store.factoryFut w1store.factoryFut ⟨5, .ready 0⟩ rfl⟩,
   ⟨rfl, rfl, (c1_phases_linear_same_call exFrom).2.2 w1store 7
      ⟨5, .ready 0⟩ ⟨5, .ready 0⟩ rfl rfl⟩⟩

/-- Claim C2, witnessed at a concrete input: the construction fails
with the untouched error `7` at poll 2 and the transform is never
invoked. -/
theorem c2_witness :
    w2store.borrowed = false ∧ w2store.factoryFut = .ready 1 (.error 7) ∧
    ∃ r0 rF, ApplyConfigServiceFactory.new_service w2store 9 = .ok r0 ∧
      drive exFrom 2 r0 = .ok (some (.error 7), rF) ∧
      rF.store.fCalls = w2store.fCalls ∧ rF.st.phase = 0 :=
  ⟨rfl, rfl, c2_construction_error_short_circuits exFrom w2store 9 1 7 rfl rfl⟩

/-- Claim C3, witnessed at a concrete input: readiness error `9` is
converted by `exFrom` to `109` and the transform is never invoked. -/
theorem c3_witness :
    w3store.borrowed = false ∧
    w3store.factoryFut = .ready 1 (.ok ⟨4, .fail 1 9⟩) ∧
    ∃ r0 rF, ApplyConfigServiceFactory.new_service w3store 9 = .ok r0 ∧
      drive exFrom 3 r0 = .ok (some (.error 109), rF) ∧
      rF.store.fCalls = w3store.fCalls ∧ rF.st.phase = 1 :=
  ⟨rfl, rfl, c3_readiness_error_converted exFrom w3store 9 1 1 4 9 rfl rfl⟩

/-- Claim C4, witnessed at a concrete input (the freshly created
response `w4r0`). -/
theorem c4_witness :
    ApplyConfigServiceFactory.new_service w4store 7 = .ok w4r0 ∧
    Reach exFrom w4r0 w4r0 ∧
    ((w4r0.st.phase ≤ 1 → w4r0.cfg = some 7) ∧
     (w4r0.st.phase = 2 → w4r0.cfg = none) ∧
     (∀ pr, pollResp exFrom w4r0 = .ok pr → pr.resp.st.phase = 2 →
       pr.resp.cfg = none) ∧
     (∀ e, pollResp exFrom w4r0 ≠ .error e)) :=
  ⟨rfl, .refl, c4_config_consumed_once exFrom w4store 7 w4r0 w4r0 rfl .refl⟩

/-- Claim C5, witnessed at a concrete input: the successful single-poll
construction `w5r0 → w5pr` has invoked the transform exactly once and
stays in phase C. -/
theorem c5_witness :
    ApplyConfigServiceFactory.new_service w5store 7 = .ok w5r0 ∧
    pollResp exFrom w5r0 = .ok w5pr ∧
    w5pr.out = .Ready (.ok 75) ∧
    (w5pr.resp.store.fCalls = w5store.fCalls + 1 ∧
     w5pr.resp.st.phase = 2 ∧
     ∀ pr2, pollResp exFrom w5pr.resp = .ok pr2 →
       pr2.resp.store.fCalls = w5pr.resp.store.fCalls ∧
       pr2.resp.st.phase = 2) :=
  ⟨rfl, rfl, rfl,
   c5_transform_once_on_success exFrom w5store 7 w5r0 w5r0 w5pr 75
     rfl .refl rfl rfl⟩

/-- Claim C6, witnessed at a concrete input. -/
theorem c6_witness :
    w6svc.borrowed = false ∧
    ApplyConfigService.new_service w6svc 7 =
      .ok ((w6svc.fFn w6svc.fState 7 w6svc.srv).1,
           { w6svc with srv := (w6svc.fFn w6svc.fState 7 w6svc.srv).2.1,
                        fState := (w6svc.fFn w6svc.fState 7 w6svc.srv).2.2,
                        fCalls := w6svc.fCalls + 1 }) :=
  ⟨rfl, c6_apply_cfg_new_service w6svc 7 rfl⟩

/-- Claim C7, witnessed at concrete inputs with the borrow flag set. -/
theorem c7_witness :
    w7svc.borrowed = true ∧ w7store.borrowed = true ∧
    (⟨5, .ready 0⟩ : InnerService Nat).ready = .ready 0 ∧
    (ApplyConfigService.new_service w7svc 7 = .error .borrowPanic ∧
     pollFromB exFrom w7store (some 7) ⟨5, .ready 0⟩ = .error .borrowPanic) :=
  ⟨rfl, rfl, rfl,
   c7_borrow_conflict_fails_fast exFrom w7svc 7 w7store (some 7)
     ⟨5, .ready 0⟩ rfl rfl rfl⟩

/-- Claim C8, witnessed at a concrete input. -/
theorem c8_witness :
    w8store.borrowed = false ∧
    ∃ r0, ApplyConfigServiceFactory.new_service w8store 7 = .ok r0 ∧
      r0.cfg = some 7 ∧ r0.st = .A w8store.factoryFut ∧
      r0.store.factoryFut = w8store.factoryFut ∧
      r0.store.fState = w8store.fState ∧ r0.store.fFn = w8store.fFn ∧
      r0.store.fCalls = w8store.fCalls ∧ r0.store.borrowed = false :=
  ⟨rfl, c8_factory_new_service_no_mutation w8store 7 rfl⟩

/-- Claim C9, witnessed at a concrete input (inner service never
ready). -/
theorem c9_witness :
    w9store.borrowed = false ∧
    w9store.factoryFut = .ready 1 (.ok ⟨4, .never⟩) ∧
    ((∀ (cfg : Option Nat) (st2 : Store Nat Nat Nat Nat Nat),
        pollResp exFrom ⟨cfg, st2, .B ⟨4, .never⟩⟩
          = .ok ⟨.Pending, ⟨cfg, st2, .B ⟨4, .never⟩⟩⟩) ∧
     ∃ r0, ApplyConfigServiceFactory.new_service w9store 11 = .ok r0 ∧
       ∀ fuel, ∃ rF, drive exFrom fuel r0 = .ok (none, rF) ∧
         rF.store.fCalls = w9store.fCalls ∧ rF.st.phase ≤ 1) :=
  ⟨rfl, rfl, c9_never_ready_never_resolves exFrom w9store 11 1 4 rfl rfl⟩

/-- Claim C10, witnessed at concrete inputs: a fresh invocation bumps
the inner-factory call count, a borrowed store panics, and a poll (of
the phase-C response `w10r`) leaves the count unchanged. -/
theorem c10_witness :
    w10store.borrowed = false ∧
    pollResp exFrom w10r = .ok w10pr ∧
    { w10store with borrowed := true }.borrowed = true ∧
    ((∃ r0, ApplyConfigServiceFactory.new_service w10store 7 = .ok r0 ∧
        r0.store.facCalls = w10store.facCalls + 1 ∧
        r0.st = .A w10store.factoryFut) ∧
     w10pr.resp.store.facCalls = w10r.store.facCalls ∧
     ApplyConfigServiceFactory.new_service
       { w10store with borrowed := true } 7 = .error .borrowPanic) :=
  ⟨rfl, rfl, rfl,
   (c10_inner_factory_once_eager exFrom w10store 7).2.1 rfl,
   (c10_inner_factory_once_eager exFrom w10store 7).2.2 w10r w10pr rfl,
   (c10_inner_factory_once_eager exFrom
     { w10store with borrowed := true } 7).1 rfl⟩

end Witnesses

end ApplyCfg
